import Mathlib

/-!
Shallow embedding of `src/src/lib/api.ts` (the data-access layer of the
chat-widget product).  Each exported async function of the module is
translated to a pure Lean function over an explicit `Store` state plus an
explicit fault environment: every round trip to the external store may be
made to fail, either with a structured error result (the `{data, error}`
shape the client resolves with) or with a thrown exception caught by the
surrounding `try/catch`.  The store itself (the supabase client) is not
part of the repository; its query semantics (equality filters, stable
ordering, single-row coercion, insert with generated id / creation
timestamp, delete-by-filter) are modelled from the spec, §3 and §6.
-/

namespace WidgetApi

/-- Row of the `widget_settings` collection (fields per the spec's data
model and the default-settings literal in `getWidgetSettings`). -/
structure WidgetSettings where
  id : String
  user_id : String
  business_name : String
  primary_color : String
  secondary_color : String
  position : String
  icon : String
  welcome_message : String
  is_active : Bool
  auto_open : Bool
  open_delay : Nat
  hide_on_mobile : Bool
deriving DecidableEq, Repr

/-- Row of the `keyword_responses` collection. -/
structure KeywordResponse where
  id : String
  user_id : String
  keyword : String
  response : String
  priority : Int
  is_active : Bool
deriving DecidableEq, Repr

/-- Row of the `chat_sessions` collection. -/
structure ChatSession where
  id : String
  user_id : String
  status : String
  created_at : Nat
deriving DecidableEq, Repr

/-- Row of the `messages` collection. -/
structure Message where
  id : String
  chat_session_id : String
  sender : String
  content : String
  created_at : Nat
deriving DecidableEq, Repr

/-- Modelled from the spec: the external relational store's contents, one
list per named collection (list position is the storage order used to
break ordering ties), together with the store's id generator and the
clock it stamps `created_at` from. -/
structure Store where
  widget_settings : List WidgetSettings
  keyword_responses : List KeywordResponse
  chat_sessions : List ChatSession
  messages : List Message
  nextId : Nat
  clock : Nat
deriving DecidableEq, Repr

/-- Modelled from the spec: the opaque unique identifier the store assigns
to an inserted row. -/
def freshId (st : Store) : String :=
  "row-" ++ toString st.nextId

/-- A failure the environment injects into one store round trip: either the
client resolves with an error result (the `error` field of `{data, error}`)
or the awaited call throws and is caught by the `try/catch`. -/
inductive Fault where
  | errRes (code : String)
  | thrown
deriving DecidableEq, Repr

/-- The store's "no matching row" condition code (PostgREST's code for a
single-row coercion that matched zero or several rows). -/
def noRowCode : String :=
  "PGRST116"

/-- Modelled from the spec: single-row coercion (`.single()`) — fail with
the distinguishable "no matching row" condition code unless exactly one
row matched. -/
def singleRow (rows : List α) : Except String α :=
  match rows with
  | [r] => Except.ok r
  | _ => Except.error noRowCode

/-- Outcome of one store round trip as the calling code observes it. -/
inductive TripOutcome (α : Type) where
  | ok (a : α)
  | errObj (code : String)
  | exn
deriving DecidableEq, Repr

/-- One store round trip: the injected fault, if any, takes precedence over
the computed query outcome. -/
def trip (f : Option Fault) (compute : Except String α) : TripOutcome α :=
  match f with
  | some (Fault.errRes c) => TripOutcome.errObj c
  | some Fault.thrown => TripOutcome.exn
  | none =>
      match compute with
      | Except.ok a => TripOutcome.ok a
      | Except.error c => TripOutcome.errObj c

/-- Modelled from the spec: stable insertion of `a` into a list ordered by
`le` — `a` goes before the first element it is `le`-related to, so among
`le`-equivalent elements earlier storage order comes first. -/
def ordInsert (le : α → α → Bool) (a : α) : List α → List α
  | [] => [a]
  | b :: bs => if le a b then a :: b :: bs else b :: ordInsert le a bs

/-- Modelled from the spec: the store's `order by` — a stable sort, ties
broken by storage order. -/
def ordSort (le : α → α → Bool) : List α → List α
  | [] => []
  | a :: as => ordInsert le a (ordSort le as)

/-- `order('priority', ascending: false)` on keyword responses. -/
def priorityDesc (a b : KeywordResponse) : Bool :=
  decide (b.priority ≤ a.priority)

/-- `order('created_at', ascending: false)` on chat sessions. -/
def createdDesc (a b : ChatSession) : Bool :=
  decide (b.created_at ≤ a.created_at)

/-- `order('created_at', ascending: true)` on messages. -/
def createdAsc (a b : Message) : Bool :=
  decide (a.created_at ≤ b.created_at)

/-- The hard-coded default-settings literal of `getWidgetSettings`, with
the store-assigned id filled in. -/
def defaultSettings (userId newId : String) : WidgetSettings :=
  { id := newId
    user_id := userId
    business_name := "My Business"
    primary_color := "#4F46E5"
    secondary_color := "#EEF2FF"
    position := "bottom-right"
    icon := "message-circle"
    welcome_message := "Hello! How can I help you today?"
    is_active := true
    auto_open := false
    open_delay := 3
    hide_on_mobile := false }

/-- `getWidgetSettings(userId)`: select the owner's single settings row;
on the "no row found" code, insert the default settings and return the new
row; on any other error (or a thrown exception) return null.  `f1` is the
fault environment of the select round trip, `f2` of the insert. -/
def getWidgetSettings (st : Store) (userId : String) (f1 f2 : Option Fault) :
    Option WidgetSettings × Store :=
  match trip f1 (singleRow (st.widget_settings.filter (fun r => r.user_id == userId))) with
  | TripOutcome.ok row => (some row, st)
  | TripOutcome.exn => (none, st)
  | TripOutcome.errObj code =>
      if code = noRowCode then
        match f2 with
        | some _ => (none, st)
        | none =>
            let row := defaultSettings userId (freshId st)
            (some row,
              { st with widget_settings := st.widget_settings ++ [row]
                        nextId := st.nextId + 1 })
      else (none, st)

/-- `Partial<WidgetSettings>`: every column optional. -/
structure WidgetSettingsPatch where
  id : Option String
  user_id : Option String
  business_name : Option String
  primary_color : Option String
  secondary_color : Option String
  position : Option String
  icon : Option String
  welcome_message : Option String
  is_active : Option Bool
  auto_open : Option Bool
  open_delay : Option Nat
  hide_on_mobile : Option Bool
deriving DecidableEq, Repr

/-- Modelled from the spec: the store's `update` sets exactly the columns
present in the partial record and leaves the others unchanged. -/
def applyPatch (p : WidgetSettingsPatch) (r : WidgetSettings) : WidgetSettings :=
  { id := p.id.getD r.id
    user_id := p.user_id.getD r.user_id
    business_name := p.business_name.getD r.business_name
    primary_color := p.primary_color.getD r.primary_color
    secondary_color := p.secondary_color.getD r.secondary_color
    position := p.position.getD r.position
    icon := p.icon.getD r.icon
    welcome_message := p.welcome_message.getD r.welcome_message
    is_active := p.is_active.getD r.is_active
    auto_open := p.auto_open.getD r.auto_open
    open_delay := p.open_delay.getD r.open_delay
    hide_on_mobile := p.hide_on_mobile.getD r.hide_on_mobile }

/-- An all-defaults row standing for the store's column defaults. -/
def blankSettings : WidgetSettings :=
  { id := ""
    user_id := ""
    business_name := ""
    primary_color := ""
    secondary_color := ""
    position := ""
    icon := ""
    welcome_message := ""
    is_active := false
    auto_open := false
    open_delay := 0
    hide_on_mobile := false }

/-- Modelled from the spec: the row the store materializes when a partial
record is inserted — the supplied columns, the generated id, and column
defaults elsewhere. -/
def materializeSettings (p : WidgetSettingsPatch) (newId : String) : WidgetSettings :=
  { applyPatch p blankSettings with id := newId }

/-- `updateWidgetSettings(settings)`: no id present means insert the
record; an id present means update the row with that id; either branch
returns null on store failure. -/
def updateWidgetSettings (st : Store) (p : WidgetSettingsPatch) (f : Option Fault) :
    Option WidgetSettings × Store :=
  match p.id with
  | none =>
      match f with
      | some _ => (none, st)
      | none =>
          let row := materializeSettings p (freshId st)
          (some row,
            { st with widget_settings := st.widget_settings ++ [row]
                      nextId := st.nextId + 1 })
  | some i =>
      match f with
      | some _ => (none, st)
      | none =>
          let updated := st.widget_settings.map
            (fun r => if r.id == i then applyPatch p r else r)
          match singleRow (updated.filter (fun r => r.id == i)) with
          | Except.ok row => (some row, { st with widget_settings := updated })
          | Except.error _ => (none, { st with widget_settings := updated })

/-- `getKeywordResponses(userId)`: the owner's keyword responses ordered by
priority descending; empty on failure. -/
def getKeywordResponses (st : Store) (userId : String) (f : Option Fault) :
    List KeywordResponse :=
  match f with
  | some _ => []
  | none => ordSort priorityDesc (st.keyword_responses.filter (fun r => r.user_id == userId))

/-- `Omit<KeywordResponse, 'id' | 'created_at' | 'updated_at'>`. -/
structure KeywordResponseNew where
  user_id : String
  keyword : String
  response : String
  priority : Int
  is_active : Bool
deriving DecidableEq, Repr

/-- `createKeywordResponse(response)`: insert and return the new row, null
on failure. -/
def createKeywordResponse (st : Store) (nr : KeywordResponseNew) (f : Option Fault) :
    Option KeywordResponse × Store :=
  match f with
  | some _ => (none, st)
  | none =>
      let row : KeywordResponse :=
        { id := freshId st
          user_id := nr.user_id
          keyword := nr.keyword
          response := nr.response
          priority := nr.priority
          is_active := nr.is_active }
      (some row,
        { st with keyword_responses := st.keyword_responses ++ [row]
                  nextId := st.nextId + 1 })

/-- `Partial<KeywordResponse>`. -/
structure KeywordResponsePatch where
  id : Option String
  user_id : Option String
  keyword : Option String
  response : Option String
  priority : Option Int
  is_active : Option Bool
deriving DecidableEq, Repr

/-- Column-wise update of a keyword-response row by a partial record. -/
def applyKrPatch (p : KeywordResponsePatch) (r : KeywordResponse) : KeywordResponse :=
  { id := p.id.getD r.id
    user_id := p.user_id.getD r.user_id
    keyword := p.keyword.getD r.keyword
    response := p.response.getD r.response
    priority := p.priority.getD r.priority
    is_active := p.is_active.getD r.is_active }

/-- `updateKeywordResponse(response)`: update the row whose id equals
`response.id` (an absent id matches no row) and return it; null on
failure. -/
def updateKeywordResponse (st : Store) (p : KeywordResponsePatch) (f : Option Fault) :
    Option KeywordResponse × Store :=
  match f with
  | some _ => (none, st)
  | none =>
      let updated := st.keyword_responses.map
        (fun r => if some r.id == p.id then applyKrPatch p r else r)
      match singleRow (updated.filter (fun r => some r.id == p.id)) with
      | Except.ok row => (some row, { st with keyword_responses := updated })
      | Except.error _ => (none, { st with keyword_responses := updated })

/-- `deleteKeywordResponse(id)`: delete-by-filter on the id; `false` on
store failure, `true` otherwise (the store reports no error when the
filter matches no row). -/
def deleteKeywordResponse (st : Store) (i : String) (f : Option Fault) :
    Bool × Store :=
  match f with
  | some _ => (false, st)
  | none =>
      (true, { st with keyword_responses := st.keyword_responses.filter (fun r => r.id != i) })

/-- `getChatSessions(userId)`: the owner's sessions ordered by creation
time descending; empty on failure. -/
def getChatSessions (st : Store) (userId : String) (f : Option Fault) :
    List ChatSession :=
  match f with
  | some _ => []
  | none => ordSort createdDesc (st.chat_sessions.filter (fun s => s.user_id == userId))

/-- `getChatSessionMessages(sessionId)`: the session's messages ordered by
creation time ascending; empty on failure. -/
def getChatSessionMessages (st : Store) (sessionId : String) (f : Option Fault) :
    List Message :=
  match f with
  | some _ => []
  | none => ordSort createdAsc (st.messages.filter (fun m => m.chat_session_id == sessionId))

/-- `Partial<ChatSession>`. -/
structure ChatSessionPatch where
  id : Option String
  user_id : Option String
  status : Option String
deriving DecidableEq, Repr

/-- Column-wise update of a chat-session row by a partial record. -/
def applyCsPatch (p : ChatSessionPatch) (s : ChatSession) : ChatSession :=
  { id := p.id.getD s.id
    user_id := p.user_id.getD s.user_id
    status := p.status.getD s.status
    created_at := s.created_at }

/-- `updateChatSession(session)`: update the row whose id equals
`session.id` and return it; null on failure. -/
def updateChatSession (st : Store) (p : ChatSessionPatch) (f : Option Fault) :
    Option ChatSession × Store :=
  match f with
  | some _ => (none, st)
  | none =>
      let updated := st.chat_sessions.map
        (fun s => if some s.id == p.id then applyCsPatch p s else s)
      match singleRow (updated.filter (fun s => some s.id == p.id)) with
      | Except.ok row => (some row, { st with chat_sessions := updated })
      | Except.error _ => (none, { st with chat_sessions := updated })

/-- `Omit<ChatSession, 'id' | 'created_at' | 'updated_at'>`. -/
structure ChatSessionNew where
  user_id : String
  status : String
deriving DecidableEq, Repr

/-- `createChatSession(session)`: insert with a generated id and the
store's creation timestamp; null on failure. -/
def createChatSession (st : Store) (ns : ChatSessionNew) (f : Option Fault) :
    Option ChatSession × Store :=
  match f with
  | some _ => (none, st)
  | none =>
      let row : ChatSession :=
        { id := freshId st
          user_id := ns.user_id
          status := ns.status
          created_at := st.clock }
      (some row,
        { st with chat_sessions := st.chat_sessions ++ [row]
                  nextId := st.nextId + 1
                  clock := st.clock + 1 })

/-- `Omit<Message, 'id' | 'created_at'>`. -/
structure MessageNew where
  chat_session_id : String
  sender : String
  content : String
deriving DecidableEq, Repr

/-- `createMessage(message)`: insert with a generated id and the store's
creation timestamp; null on failure. -/
def createMessage (st : Store) (nm : MessageNew) (f : Option Fault) :
    Option Message × Store :=
  match f with
  | some _ => (none, st)
  | none =>
      let row : Message :=
        { id := freshId st
          chat_session_id := nm.chat_session_id
          sender := nm.sender
          content := nm.content
          created_at := st.clock }
      (some row,
        { st with messages := st.messages ++ [row]
                  nextId := st.nextId + 1
                  clock := st.clock + 1 })

/-- Membership test of `.in('status', ['active', 'agent_assigned'])`. -/
def isActiveStatus (s : String) : Bool :=
  s == "active" || s == "agent_assigned"

/-- `getActiveChatSessions(userId)`: the owner's sessions with status
"active" or "agent_assigned", ordered by creation time descending; empty
on failure. -/
def getActiveChatSessions (st : Store) (userId : String) (f : Option Fault) :
    List ChatSession :=
  match f with
  | some _ => []
  | none =>
      ordSort createdDesc
        (st.chat_sessions.filter (fun s => s.user_id == userId && isActiveStatus s.status))

/-- The analytics aggregate shape. -/
structure AnalyticsData where
  total_chats : Nat
  total_messages : Nat
  average_response_time : Rat
  chat_duration : Rat
  visitor_satisfaction : Nat
  keyword_matches : List (String × Nat)
deriving DecidableEq, Repr

/-- The zeroed structure returned by the analytics catch block. -/
def analyticsFallback : AnalyticsData :=
  { total_chats := 0
    total_messages := 0
    average_response_time := 0
    chat_duration := 0
    visitor_satisfaction := 0
    keyword_matches := [] }

/-- The hard-coded keyword-match placeholder of `getAnalyticsData`. -/
def mockKeywordMatches : List (String × Nat) :=
  [("pricing", 42), ("support", 38), ("features", 27),
   ("account", 21), ("billing", 18), ("other", 34)]

/-- `getAnalyticsData(userId, timeRange)`: count the owner's sessions,
then the messages whose parent session belongs to the owner (the inner
join); the remaining metrics are hard-coded; any failed round trip throws
into the catch block, which returns the zeroed structure.  `timeRange` is
accepted but never read. -/
def getAnalyticsData (st : Store) (userId timeRange : String) (f1 f2 : Option Fault) :
    AnalyticsData :=
  match f1 with
  | some _ => analyticsFallback
  | none =>
      let chatData := (st.chat_sessions.filter (fun s => s.user_id == userId)).map
        (fun s => s.id)
      match f2 with
      | some _ => analyticsFallback
      | none =>
          let messageData := st.messages.filter
            (fun m => st.chat_sessions.any (fun s => s.id == m.chat_session_id && s.user_id == userId))
          { total_chats := chatData.length
            total_messages := messageData.length
            average_response_time := 8.5
            chat_duration := 4.2
            visitor_satisfaction := 92
            keyword_matches := mockKeywordMatches }

/-- The public widget-data shape. -/
structure WidgetData where
  settings : Option WidgetSettings
  keywordResponses : List KeywordResponse
deriving DecidableEq, Repr

/-- The fallback the `getWidgetData` catch block returns. -/
def widgetDataFallback : WidgetData :=
  { settings := none, keywordResponses := [] }

/-- `getWidgetData(uid)`: the owner's single settings row, then the
owner's active keyword responses ordered by priority descending; any
failed round trip (including the single-row coercion finding no settings
row) throws into the catch block, which returns the fallback. -/
def getWidgetData (st : Store) (uid : String) (f1 f2 : Option Fault) : WidgetData :=
  match trip f1 (singleRow (st.widget_settings.filter (fun r => r.user_id == uid))) with
  | TripOutcome.ok s =>
      match f2 with
      | some _ => widgetDataFallback
      | none =>
          { settings := some s
            keywordResponses := ordSort priorityDesc
              (st.keyword_responses.filter (fun r => r.user_id == uid && r.is_active)) }
  | TripOutcome.errObj _ => widgetDataFallback
  | TripOutcome.exn => widgetDataFallback

/-! Concrete stores used to evaluate the definitions on closed inputs. -/

/-- The empty store. -/
def st0 : Store :=
  { widget_settings := []
    keyword_responses := []
    chat_sessions := []
    messages := []
    nextId := 0
    clock := 0 }

/-- A sample settings row owned by "u2". -/
def s1 : WidgetSettings :=
  { id := "s1"
    user_id := "u2"
    business_name := "Acme"
    primary_color := "#111111"
    secondary_color := "#222222"
    position := "bottom-left"
    icon := "chat"
    welcome_message := "Hi"
    is_active := true
    auto_open := true
    open_delay := 5
    hide_on_mobile := true }

/-- A sample keyword response owned by "u1", priority 1, active. -/
def k1 : KeywordResponse :=
  { id := "k1"
    user_id := "u1"
    keyword := "pricing"
    response := "See the pricing page"
    priority := 1
    is_active := true }

/-- A sample keyword response owned by "u1", priority 5, inactive. -/
def k2 : KeywordResponse :=
  { id := "k2"
    user_id := "u1"
    keyword := "support"
    response := "Email us"
    priority := 5
    is_active := false }

/-- A closed chat session of "u1", most recent. -/
def c1 : ChatSession :=
  { id := "c1"
    user_id := "u1"
    status := "closed"
    created_at := 10 }

/-- An active chat session of "u1". -/
def c2 : ChatSession :=
  { id := "c2"
    user_id := "u1"
    status := "active"
    created_at := 5 }

/-- A sample message in session "c1". -/
def m1 : Message :=
  { id := "m1"
    chat_session_id := "c1"
    sender := "visitor"
    content := "hello"
    created_at := 3 }

/-- A populated store. -/
def st1 : Store :=
  { widget_settings := [s1]
    keyword_responses := [k1, k2]
    chat_sessions := [c1, c2]
    messages := [m1]
    nextId := 7
    clock := 20 }

/-- A sample partial settings record with no id (insert branch). -/
def pIns : WidgetSettingsPatch :=
  { id := none
    user_id := some "u3"
    business_name := some "New Biz"
    primary_color := none
    secondary_color := none
    position := none
    icon := none
    welcome_message := none
    is_active := some true
    auto_open := none
    open_delay := none
    hide_on_mobile := none }

/-- A sample partial settings record carrying id "s1" and a new primary
color (update branch). -/
def pUpd : WidgetSettingsPatch :=
  { id := some "s1"
    user_id := none
    business_name := none
    primary_color := some "#000000"
    secondary_color := none
    position := none
    icon := none
    welcome_message := none
    is_active := none
    auto_open := none
    open_delay := none
    hide_on_mobile := none }

/-! Lemmas about the stable sort used to model the store's `order by`. -/

theorem ordInsert_split (le : α → α → Bool) (a : α) (l : List α) :
    ∃ l1 l2, l = l1 ++ l2 ∧ ordInsert le a l = l1 ++ a :: l2 ∧ ∀ b ∈ l1, le a b = false := by
  induction l with
  | nil => exact ⟨[], [], rfl, rfl, by simp⟩
  | cons b bs ih =>
      cases hb : le a b with
      | true => exact ⟨[], b :: bs, rfl, by simp [ordInsert, hb], by simp⟩
      | false =>
          obtain ⟨l1, l2, h1, h2, h3⟩ := ih
          refine ⟨b :: l1, l2, by simp [h1], by simp [ordInsert, hb, h2], ?_⟩
          intro c hc
          rcases List.mem_cons.mp hc with h | h
          · exact h ▸ hb
          · exact h3 c h

theorem ordInsert_perm (le : α → α → Bool) (a : α) (l : List α) :
    List.Perm (ordInsert le a l) (a :: l) := by
  obtain ⟨l1, l2, h1, h2, -⟩ := ordInsert_split le a l
  rw [h2, h1]
  exact List.perm_middle

theorem ordSort_perm (le : α → α → Bool) (l : List α) :
    List.Perm (ordSort le l) l := by
  induction l with
  | nil => exact List.Perm.refl []
  | cons a as ih =>
      exact (ordInsert_perm le a (ordSort le as)).trans (List.Perm.cons a ih)

theorem mem_ordSort (le : α → α → Bool) (l : List α) (x : α) :
    x ∈ ordSort le l ↔ x ∈ l :=
  (ordSort_perm le l).mem_iff

theorem mem_ordInsert (le : α → α → Bool) (a : α) (l : List α) (x : α) :
    x ∈ ordInsert le a l ↔ x = a ∨ x ∈ l := by
  rw [(ordInsert_perm le a l).mem_iff, List.mem_cons]

theorem pairwise_ordInsert (le : α → α → Bool)
    (htot : ∀ a b, le a b = true ∨ le b a = true)
    (htr : ∀ a b c, le a b = true → le b c = true → le a c = true)
    (a : α) (l : List α) (h : List.Pairwise (fun x y => le x y = true) l) :
    List.Pairwise (fun x y => le x y = true) (ordInsert le a l) := by
  induction l with
  | nil => simp [ordInsert]
  | cons b bs ih =>
      rcases List.pairwise_cons.mp h with ⟨hb, hbs⟩
      cases hab : le a b with
      | true =>
          rw [show ordInsert le a (b :: bs) = a :: b :: bs by simp [ordInsert, hab]]
          refine List.pairwise_cons.mpr ⟨?_, h⟩
          intro c hc
          rcases List.mem_cons.mp hc with rfl | hcbs
          · exact hab
          · exact htr a b c hab (hb c hcbs)
      | false =>
          rw [show ordInsert le a (b :: bs) = b :: ordInsert le a bs by simp [ordInsert, hab]]
          refine List.pairwise_cons.mpr ⟨?_, ih hbs⟩
          intro c hc
          rcases (mem_ordInsert le a bs c).mp hc with rfl | hcbs
          · rcases htot c b with h1 | h1
            · rw [hab] at h1; exact absurd h1 (by simp)
            · exact h1
          · exact hb c hcbs

theorem pairwise_ordSort (le : α → α → Bool)
    (htot : ∀ a b, le a b = true ∨ le b a = true)
    (htr : ∀ a b c, le a b = true → le b c = true → le a c = true)
    (l : List α) :
    List.Pairwise (fun x y => le x y = true) (ordSort le l) := by
  induction l with
  | nil => simp [ordSort]
  | cons a as ih => exact pairwise_ordInsert le htot htr a (ordSort le as) ih

theorem filter_ordSort (le : α → α → Bool) (q : α → Bool)
    (hq : ∀ a b, q a = true → q b = true → le a b = true) (l : List α) :
    (ordSort le l).filter q = l.filter q := by
  induction l with
  | nil => rfl
  | cons a as ih =>
      obtain ⟨l1, l2, h1, h2, h3⟩ := ordInsert_split le a (ordSort le as)
      have hsplit : (ordSort le as).filter q = l1.filter q ++ l2.filter q := by
        rw [h1, List.filter_append]
      cases hqa : q a with
      | true =>
          have hl1 : l1.filter q = [] := by
            refine List.filter_eq_nil_iff.mpr ?_
            intro b hb hqb
            have hle : le a b = true := hq a b hqa hqb
            rw [h3 b hb] at hle
            exact absurd hle (by simp)
          calc (ordSort le (a :: as)).filter q
              = (l1 ++ a :: l2).filter q := by
                rw [show ordSort le (a :: as) = ordInsert le a (ordSort le as) from rfl, h2]
            _ = l1.filter q ++ a :: l2.filter q := by
                rw [List.filter_append, List.filter_cons_of_pos hqa]
            _ = a :: l2.filter q := by rw [hl1]; rfl
            _ = a :: (ordSort le as).filter q := by rw [hsplit, hl1]; rfl
            _ = a :: as.filter q := by rw [ih]
            _ = (a :: as).filter q := by rw [List.filter_cons_of_pos hqa]
      | false =>
          calc (ordSort le (a :: as)).filter q
              = (l1 ++ a :: l2).filter q := by
                rw [show ordSort le (a :: as) = ordInsert le a (ordSort le as) from rfl, h2]
            _ = l1.filter q ++ l2.filter q := by
                rw [List.filter_append, List.filter_cons_of_neg (by simp [hqa])]
            _ = (ordSort le as).filter q := hsplit.symm
            _ = as.filter q := ih
            _ = (a :: as).filter q := by rw [List.filter_cons_of_neg (by simp [hqa])]

theorem ordInsert_append_last (le : α → α → Bool) (a x : α) (l : List α)
    (hax : le a x = true) :
    ordInsert le a (l ++ [x]) = ordInsert le a l ++ [x] := by
  induction l with
  | nil => simp [ordInsert, hax]
  | cons b bs ih =>
      cases hab : le a b with
      | true => simp [ordInsert, hab]
      | false => simp [ordInsert, hab, ih]

theorem ordSort_append_max (le : α → α → Bool) (x : α) (l : List α)
    (h : ∀ a ∈ l, le a x = true) :
    ordSort le (l ++ [x]) = ordSort le l ++ [x] := by
  induction l with
  | nil => rfl
  | cons a as ih =>
      have ha : le a x = true := h a (List.mem_cons_self a as)
      have ih2 := ih (fun b hb => h b (List.mem_cons_of_mem a hb))
      calc ordSort le ((a :: as) ++ [x])
          = ordInsert le a (ordSort le (as ++ [x])) := rfl
        _ = ordInsert le a (ordSort le as ++ [x]) := by rw [ih2]
        _ = ordInsert le a (ordSort le as) ++ [x] := ordInsert_append_last le a x _ ha
        _ = ordSort le (a :: as) ++ [x] := rfl

theorem filter_map_comm (g : α → α) (q : α → Bool) (hgq : ∀ x, q (g x) = q x)
    (l : List α) :
    (l.map g).filter q = (l.filter q).map g := by
  induction l with
  | nil => rfl
  | cons a as ih =>
      cases hqa : q a with
      | true =>
          rw [List.map_cons, List.filter_cons_of_pos (by rw [hgq]; exact hqa),
            List.filter_cons_of_pos hqa, List.map_cons, ih]
      | false =>
          rw [List.map_cons, List.filter_cons_of_neg (by simp [hgq, hqa]),
            List.filter_cons_of_neg (by simp [hqa]), ih]

theorem priorityDesc_total (a b : KeywordResponse) :
    priorityDesc a b = true ∨ priorityDesc b a = true := by
  simp only [priorityDesc, decide_eq_true_eq]
  exact le_total b.priority a.priority

theorem priorityDesc_trans (a b c : KeywordResponse) :
    priorityDesc a b = true → priorityDesc b c = true → priorityDesc a c = true := by
  intro hab hbc
  simp only [priorityDesc, decide_eq_true_eq] at hab hbc ⊢
  exact le_trans hbc hab

theorem createdDesc_total (a b : ChatSession) :
    createdDesc a b = true ∨ createdDesc b a = true := by
  simp only [createdDesc, decide_eq_true_eq]
  exact le_total b.created_at a.created_at

theorem createdDesc_trans (a b c : ChatSession) :
    createdDesc a b = true → createdDesc b c = true → createdDesc a c = true := by
  intro hab hbc
  simp only [createdDesc, decide_eq_true_eq] at hab hbc ⊢
  exact le_trans hbc hab

theorem createdAsc_total (a b : Message) :
    createdAsc a b = true ∨ createdAsc b a = true := by
  simp only [createdAsc, decide_eq_true_eq]
  exact le_total a.created_at b.created_at

theorem createdAsc_trans (a b c : Message) :
    createdAsc a b = true → createdAsc b c = true → createdAsc a c = true := by
  intro hab hbc
  simp only [createdAsc, decide_eq_true_eq] at hab hbc ⊢
  exact le_trans hab hbc

/-! Claim theorems. -/

/-- C1: no store failure escapes the DataAccessLayer: whatever fault the
environment injects into any round trip of any exported function — an
error result or a thrown exception — the caller receives the operation's
fallback value (null for single-entity reads and writes, false for
delete, the empty list for multi-entity reads, the zeroed structure for
analytics, the null-settings/empty-list pair for public widget data)
rather than an exception.  The only store error not collapsed to the
fallback is the "no row found" code in getWidgetSettings, which triggers
auto-provisioning instead; a failure of the provisioning insert itself
again yields null. -/
theorem C1_no_store_failure_escapes (st : Store) :
    (∀ uid f2 (f : Fault), f ≠ Fault.errRes noRowCode →
        (getWidgetSettings st uid (some f) f2).1 = none) ∧
    (∀ uid (f : Fault),
        (getWidgetSettings st uid (some (Fault.errRes noRowCode)) (some f)).1 = none) ∧
    (∀ p (f : Fault), (updateWidgetSettings st p (some f)).1 = none) ∧
    (∀ uid (f : Fault), getKeywordResponses st uid (some f) = []) ∧
    (∀ nr (f : Fault), (createKeywordResponse st nr (some f)).1 = none) ∧
    (∀ p (f : Fault), (updateKeywordResponse st p (some f)).1 = none) ∧
    (∀ i (f : Fault), (deleteKeywordResponse st i (some f)).1 = false) ∧
    (∀ uid (f : Fault), getChatSessions st uid (some f) = []) ∧
    (∀ sid (f : Fault), getChatSessionMessages st sid (some f) = []) ∧
    (∀ p (f : Fault), (updateChatSession st p (some f)).1 = none) ∧
    (∀ ns (f : Fault), (createChatSession st ns (some f)).1 = none) ∧
    (∀ nm (f : Fault), (createMessage st nm (some f)).1 = none) ∧
    (∀ uid (f : Fault), getActiveChatSessions st uid (some f) = []) ∧
    (∀ uid tr f2 (f : Fault), getAnalyticsData st uid tr (some f) f2 = analyticsFallback) ∧
    (∀ uid tr (f : Fault), getAnalyticsData st uid tr none (some f) = analyticsFallback) ∧
    (∀ uid f2 (f : Fault), getWidgetData st uid (some f) f2 = widgetDataFallback) ∧
    (∀ uid (f : Fault), getWidgetData st uid none (some f) = widgetDataFallback) := by
  refine ⟨?_, ?_, ?_, ?_, ?_, ?_, ?_, ?_, ?_, ?_, ?_, ?_, ?_, ?_, ?_, ?_, ?_⟩
  · intro uid f2 f hf
    cases f with
    | thrown => rfl
    | errRes c =>
        have hc : ¬c = noRowCode := fun h => hf (by rw [h])
        simp [getWidgetSettings, trip, hc]
  · intro uid f
    simp [getWidgetSettings, trip]
  · intro p f
    cases hpid : p.id with
    | none => simp [updateWidgetSettings, hpid]
    | some i => simp [updateWidgetSettings, hpid]
  · intro uid f; rfl
  · intro nr f; rfl
  · intro p f; rfl
  · intro i f; rfl
  · intro uid f; rfl
  · intro sid f; rfl
  · intro p f; rfl
  · intro ns f; rfl
  · intro nm f; rfl
  · intro uid f; rfl
  · intro uid tr f2 f; rfl
  · intro uid tr f; rfl
  · intro uid f2 f
    cases f with
    | thrown => rfl
    | errRes c => rfl
  · intro uid f
    cases hs : singleRow (st.widget_settings.filter (fun r => r.user_id == uid)) with
    | ok s => simp [getWidgetData, trip, hs]
    | error c => simp [getWidgetData, trip, hs]

/-- C1 witness: concrete fault injections observed at the empty store. -/
theorem C1_no_store_failure_escapes_witness :
    (getWidgetSettings st0 "u1" (some Fault.thrown) none).1 = none ∧
    (getWidgetSettings st0 "u1" (some (Fault.errRes noRowCode)) (some Fault.thrown)).1 = none ∧
    getKeywordResponses st0 "u1" (some (Fault.errRes "ECONN")) = [] ∧
    getWidgetData st0 "u1" none (some Fault.thrown) = widgetDataFallback :=
  ⟨(C1_no_store_failure_escapes st0).1 "u1" none Fault.thrown (by decide),
   (C1_no_store_failure_escapes st0).2.1 "u1" Fault.thrown,
   (C1_no_store_failure_escapes st0).2.2.2.1 "u1" (Fault.errRes "ECONN"),
   (C1_no_store_failure_escapes
     st0).2.2.2.2.2.2.2.2.2.2.2.2.2.2.2.2 "u1" Fault.thrown⟩

/-- C2: for every owner with no matching settings row, the select's
single-row coercion reports the "no row found" code and getWidgetSettings
inserts the hard-coded default settings record for that owner (business
name "My Business", primary color "#4F46E5", active, owner id equal to
the requested id) and returns the newly created row; any other store
error (or a thrown exception) yields null. -/
theorem C2_auto_provision_on_no_row (st : Store) (uid : String) :
    (st.widget_settings.filter (fun r => r.user_id == uid) = [] →
      getWidgetSettings st uid none none =
        (some (defaultSettings uid (freshId st)),
         { st with widget_settings := st.widget_settings ++ [defaultSettings uid (freshId st)]
                   nextId := st.nextId + 1 }) ∧
      (defaultSettings uid (freshId st)).user_id = uid ∧
      (defaultSettings uid (freshId st)).business_name = "My Business" ∧
      (defaultSettings uid (freshId st)).primary_color = "#4F46E5" ∧
      (defaultSettings uid (freshId st)).is_active = true) ∧
    (∀ c f2, ¬c = noRowCode →
      (getWidgetSettings st uid (some (Fault.errRes c)) f2).1 = none) ∧
    (∀ f2, (getWidgetSettings st uid (some Fault.thrown) f2).1 = none) := by
  refine ⟨?_, ?_, ?_⟩
  · intro h
    have hs : singleRow (st.widget_settings.filter (fun r => r.user_id == uid)) =
        Except.error noRowCode := by
      rw [h]; rfl
    exact ⟨by simp [getWidgetSettings, trip, hs], rfl, rfl, rfl, rfl⟩
  · intro c f2 hc
    simp [getWidgetSettings, trip, hc]
  · intro f2; rfl

/-- C2 witness: at the empty store, owner "u1" has no settings row; the
call provisions and returns the default row, and a connection error
yields null. -/
theorem C2_auto_provision_on_no_row_witness :
    st0.widget_settings.filter (fun r => r.user_id == "u1") = [] ∧
    getWidgetSettings st0 "u1" none none =
      (some (defaultSettings "u1" (freshId st0)),
       { st0 with widget_settings := st0.widget_settings ++ [defaultSettings "u1" (freshId st0)]
                  nextId := st0.nextId + 1 }) ∧
    (getWidgetSettings st0 "u1" (some (Fault.errRes "ECONNRESET")) none).1 = none :=
  ⟨rfl,
   ((C2_auto_provision_on_no_row st0 "u1").1 rfl).1,
   (C2_auto_provision_on_no_row st0 "u1").2.1 "ECONNRESET" none (by decide)⟩

/-- C3: updateWidgetSettings upserts by presence of the id: a partial
record lacking an id is inserted and the materialized row returned; a
record carrying an id updates the row with that id and returns it with
the absent columns unchanged and the present ones applied; on store
failure either branch returns null. -/
theorem C3_upsert_by_presence_of_id (st : Store) (p : WidgetSettingsPatch) :
    (p.id = none →
      updateWidgetSettings st p none =
        (some (materializeSettings p (freshId st)),
         { st with widget_settings := st.widget_settings ++ [materializeSettings p (freshId st)]
                   nextId := st.nextId + 1 })) ∧
    (∀ i r, p.id = some i →
      st.widget_settings.filter (fun x => x.id == i) = [r] →
      (updateWidgetSettings st p none).1 = some (applyPatch p r) ∧
      (p.user_id = none → (applyPatch p r).user_id = r.user_id) ∧
      (p.business_name = none → (applyPatch p r).business_name = r.business_name) ∧
      (p.primary_color = none → (applyPatch p r).primary_color = r.primary_color) ∧
      (p.secondary_color = none → (applyPatch p r).secondary_color = r.secondary_color) ∧
      (p.position = none → (applyPatch p r).position = r.position) ∧
      (p.icon = none → (applyPatch p r).icon = r.icon) ∧
      (p.welcome_message = none → (applyPatch p r).welcome_message = r.welcome_message) ∧
      (p.is_active = none → (applyPatch p r).is_active = r.is_active) ∧
      (p.auto_open = none → (applyPatch p r).auto_open = r.auto_open) ∧
      (p.open_delay = none → (applyPatch p r).open_delay = r.open_delay) ∧
      (p.hide_on_mobile = none → (applyPatch p r).hide_on_mobile = r.hide_on_mobile) ∧
      (∀ col, p.primary_color = some col → (applyPatch p r).primary_color = col)) ∧
    (∀ f, (updateWidgetSettings st p (some f)).1 = none) := by
  refine ⟨?_, ?_, ?_⟩
  · intro hpid
    simp [updateWidgetSettings, hpid]
  · intro i r hpid hfilter
    have hr : r ∈ st.widget_settings.filter (fun x => x.id == i) := by
      rw [hfilter]; exact List.mem_singleton.mpr rfl
    have hrq : (r.id == i) = true := (List.mem_filter.mp hr).2
    have hri : r.id = i := by simpa using hrq
    have hgq : ∀ x : WidgetSettings,
        ((if x.id == i then applyPatch p x else x).id == i) = (x.id == i) := by
      intro x
      cases hx : (x.id == i) with
      | true => simp [hx, applyPatch, hpid]
      | false => simp [hx]
    have hmap :
        (st.widget_settings.map (fun x => if x.id == i then applyPatch p x else x)).filter
            (fun x => x.id == i) = [applyPatch p r] := by
      rw [filter_map_comm _ _ hgq, hfilter]
      simp [hri]
    refine ⟨by simp only [updateWidgetSettings, hpid]; rw [hmap]; rfl,
      fun h => by simp [applyPatch, h], fun h => by simp [applyPatch, h],
      fun h => by simp [applyPatch, h], fun h => by simp [applyPatch, h],
      fun h => by simp [applyPatch, h], fun h => by simp [applyPatch, h],
      fun h => by simp [applyPatch, h], fun h => by simp [applyPatch, h],
      fun h => by simp [applyPatch, h], fun h => by simp [applyPatch, h],
      fun h => by simp [applyPatch, h], fun col h => by simp [applyPatch, h]⟩
  · intro f
    cases hpid : p.id with
    | none => simp [updateWidgetSettings, hpid]
    | some i => simp [updateWidgetSettings, hpid]

/-- C3 witness: updating the existing row "s1" with a new primary color
returns the patched row; a record lacking an id is inserted. -/
theorem C3_upsert_by_presence_of_id_witness :
    pUpd.id = some "s1" ∧
    st1.widget_settings.filter (fun x => x.id == "s1") = [s1] ∧
    (updateWidgetSettings st1 pUpd none).1 = some (applyPatch pUpd s1) ∧
    pIns.id = none ∧
    updateWidgetSettings st1 pIns none =
      (some (materializeSettings pIns (freshId st1)),
       { st1 with widget_settings := st1.widget_settings ++ [materializeSettings pIns (freshId st1)]
                  nextId := st1.nextId + 1 }) :=
  ⟨rfl, rfl,
   ((C3_upsert_by_presence_of_id st1 pUpd).2.1 "s1" s1 rfl rfl).1,
   rfl,
   (C3_upsert_by_presence_of_id st1 pIns).1 rfl⟩

/-- C4 counterexample: in the populated store no keyword response has id
"ghost", yet deleteKeywordResponse returns true, not false: delete-by-
filter matching zero rows is not a store error, so the claim's
"non-existent id returns false" is false on the code. -/
theorem C4_delete_missing_id_counterexample :
    st1.keyword_responses.all (fun r => r.id != "ghost") = true ∧
    (deleteKeywordResponse st1 "ghost" none).1 = true :=
  ⟨rfl, rfl⟩

/-- C4 amended: deleteKeywordResponse returns true whenever the store
round trip succeeds — including for a non-existent id, since a delete
filter matching zero rows is not a store error — and false only on store
failure (which leaves the store unchanged); after a successful call the
id is absent from every subsequent getKeywordResponses result for any
owner. -/
theorem C4_delete_amended (st : Store) (i : String) :
    ((deleteKeywordResponse st i none).1 = true ∧
     ∀ uid r, r ∈ getKeywordResponses (deleteKeywordResponse st i none).2 uid none →
       r.id ≠ i) ∧
    (∀ f, deleteKeywordResponse st i (some f) = (false, st)) := by
  refine ⟨⟨rfl, ?_⟩, fun f => rfl⟩
  intro uid r hr
  simp only [getKeywordResponses, deleteKeywordResponse] at hr
  have h1 := (mem_ordSort _ _ r).mp hr
  have h2 := (List.mem_filter.mp (List.mem_filter.mp h1).1).2
  simpa using h2

/-- C4 amended witness: deleting the existing id "k1" returns true, the
remaining response k2 listed afterwards does not carry id "k1", and an
injected fault yields false with the store untouched. -/
theorem C4_delete_amended_witness :
    (deleteKeywordResponse st1 "k1" none).1 = true ∧
    k2.id ≠ "k1" ∧
    deleteKeywordResponse st1 "k1" (some Fault.thrown) = (false, st1) :=
  ⟨(C4_delete_amended st1 "k1").1.1,
   (C4_delete_amended st1 "k1").1.2 "u1" k2 (by decide),
   (C4_delete_amended st1 "k1").2 Fault.thrown⟩

/-- C5: auto-provisioning is idempotent: for an owner with no settings
row, the first call provisions and returns the hard-coded default record
(business name "My Business", primary color "#4F46E5", active); a second
call for the same owner returns the very same record and leaves the store
unchanged, and exactly one settings row for the owner results. -/
theorem C5_get_settings_idempotent (st : Store) (uid : String)
    (h : st.widget_settings.filter (fun r => r.user_id == uid) = []) :
    ∃ r st2,
      getWidgetSettings st uid none none = (some r, st2) ∧
      r.business_name = "My Business" ∧
      r.primary_color = "#4F46E5" ∧
      r.is_active = true ∧
      getWidgetSettings st2 uid none none = (some r, st2) ∧
      st2.widget_settings.filter (fun x => x.user_id == uid) = [r] := by
  have hs : singleRow (st.widget_settings.filter (fun r => r.user_id == uid)) =
      Except.error noRowCode := by
    rw [h]; rfl
  have hf2 : (st.widget_settings ++ [defaultSettings uid (freshId st)]).filter
      (fun x => x.user_id == uid) = [defaultSettings uid (freshId st)] := by
    simp [List.filter_append, h, defaultSettings]
  refine ⟨defaultSettings uid (freshId st),
    { st with widget_settings := st.widget_settings ++ [defaultSettings uid (freshId st)]
              nextId := st.nextId + 1 },
    by simp [getWidgetSettings, trip, hs], rfl, rfl, rfl, ?_, hf2⟩
  have hs2 : singleRow ((st.widget_settings ++ [defaultSettings uid (freshId st)]).filter
      (fun r => r.user_id == uid)) = Except.ok (defaultSettings uid (freshId st)) := by
    rw [show (st.widget_settings ++ [defaultSettings uid (freshId st)]).filter
        (fun r => r.user_id == uid) = [defaultSettings uid (freshId st)] from hf2]
    rfl
  simp only [getWidgetSettings]
  rw [hs2]
  rfl

/-- C5 witness: at the empty store, owner "u1" provisions once and the
second call is a pure read of the same record. -/
theorem C5_get_settings_idempotent_witness :
    st0.widget_settings.filter (fun r => r.user_id == "u1") = [] ∧
    ∃ r st2,
      getWidgetSettings st0 "u1" none none = (some r, st2) ∧
      r.business_name = "My Business" ∧
      r.primary_color = "#4F46E5" ∧
      r.is_active = true ∧
      getWidgetSettings st2 "u1" none none = (some r, st2) ∧
      st2.widget_settings.filter (fun x => x.user_id == "u1") = [r] :=
  ⟨rfl, C5_get_settings_idempotent st0 "u1" rfl⟩

/-- C6: getKeywordResponses returns exactly the stored keyword responses
whose owner id equals the argument — a permutation of the owner filter of
storage — sorted by priority descending, with equal-priority responses
keeping their relative storage order (for every priority, the
equal-priority sublist of the result equals the corresponding sublist of
storage); on store failure it returns the empty sequence. -/
theorem C6_keyword_responses_listing (st : Store) (uid : String) :
    List.Perm (getKeywordResponses st uid none)
      (st.keyword_responses.filter (fun r => r.user_id == uid)) ∧
    (∀ x, x ∈ getKeywordResponses st uid none ↔
      x ∈ st.keyword_responses ∧ x.user_id = uid) ∧
    List.Pairwise (fun a b => b.priority ≤ a.priority) (getKeywordResponses st uid none) ∧
    (∀ pr : Int, (getKeywordResponses st uid none).filter (fun r => r.priority == pr) =
      (st.keyword_responses.filter (fun r => r.user_id == uid)).filter
        (fun r => r.priority == pr)) ∧
    (∀ f, getKeywordResponses st uid (some f) = []) := by
  refine ⟨?_, ?_, ?_, ?_, fun f => rfl⟩
  · exact ordSort_perm priorityDesc (st.keyword_responses.filter (fun r => r.user_id == uid))
  · intro x
    rw [show getKeywordResponses st uid none = ordSort priorityDesc
        (st.keyword_responses.filter (fun r => r.user_id == uid)) from rfl,
      mem_ordSort, List.mem_filter]
    simp
  · have hp := pairwise_ordSort priorityDesc priorityDesc_total priorityDesc_trans
      (st.keyword_responses.filter (fun r => r.user_id == uid))
    exact hp.imp (fun h => by simpa [priorityDesc] using h)
  · intro pr
    refine filter_ordSort priorityDesc (fun r => r.priority == pr) ?_ _
    intro a b ha hb
    have ha2 : a.priority = pr := by simpa using ha
    have hb2 : b.priority = pr := by simpa using hb
    simp [priorityDesc, ha2, hb2]

/-- C6 witness: for owner "u1" the populated store lists k2 (priority 5)
before k1 (priority 1), and a fault yields the empty sequence. -/
theorem C6_keyword_responses_listing_witness :
    getKeywordResponses st1 "u1" (some Fault.thrown) = [] ∧
    getKeywordResponses st1 "u1" none = [k2, k1] :=
  ⟨(C6_keyword_responses_listing st1 "u1").2.2.2.2 Fault.thrown, rfl⟩

/-- C7: getActiveChatSessions returns exactly the owner's sessions whose
status is "active" or "agent_assigned", ordered by creation time
descending; a session with any other status — "closed" in particular —
never appears, however recent; on store failure the result is the empty
sequence. -/
theorem C7_active_sessions_listing (st : Store) (uid : String) :
    (∀ x, x ∈ getActiveChatSessions st uid none ↔
      x ∈ st.chat_sessions ∧ x.user_id = uid ∧
        (x.status = "active" ∨ x.status = "agent_assigned")) ∧
    List.Pairwise (fun a b => b.created_at ≤ a.created_at)
      (getActiveChatSessions st uid none) ∧
    (∀ x, x ∈ getActiveChatSessions st uid none → x.status ≠ "closed") ∧
    (∀ f, getActiveChatSessions st uid (some f) = []) := by
  refine ⟨?_, ?_, ?_, fun f => rfl⟩
  · intro x
    rw [show getActiveChatSessions st uid none = ordSort createdDesc
        (st.chat_sessions.filter (fun s => s.user_id == uid && isActiveStatus s.status)) from rfl,
      mem_ordSort, List.mem_filter]
    simp [isActiveStatus, and_assoc]
  · have hp := pairwise_ordSort createdDesc createdDesc_total createdDesc_trans
      (st.chat_sessions.filter (fun s => s.user_id == uid && isActiveStatus s.status))
    exact hp.imp (fun h => by simpa [createdDesc] using h)
  · intro x hx
    simp only [getActiveChatSessions] at hx
    have h1 := (List.mem_filter.mp ((mem_ordSort _ _ x).mp hx)).2
    have h2 : isActiveStatus x.status = true := ((Bool.and_eq_true _ _).mp h1).2
    intro hcl
    rw [hcl] at h2
    exact absurd h2 (by decide)

/-- C7 witness: for owner "u1" the populated store returns only the
active session c2 — the closed session c1 is excluded although it is the
most recent — and a fault yields the empty sequence. -/
theorem C7_active_sessions_listing_witness :
    getActiveChatSessions st1 "u1" none = [c2] ∧
    c1.created_at = 10 ∧ c2.created_at = 5 ∧ c1.status = "closed" ∧
    getActiveChatSessions st1 "u1" (some (Fault.errRes "ECONN")) = [] :=
  ⟨rfl, rfl, rfl, rfl,
   (C7_active_sessions_listing st1 "u1").2.2.2 (Fault.errRes "ECONN")⟩

/-- C8: the analytics result never depends on the timeRange parameter —
any two range arguments give identical results over the same store and
fault environment; with no fault, total_chats and total_messages are the
real counts of the owner's sessions and of the messages whose parent
session belongs to the owner, while average_response_time, chat_duration,
visitor_satisfaction and keyword_matches are hard-coded constants. -/
theorem C8_analytics_range_independent (st : Store) (uid t1 t2 : String)
    (f1 f2 : Option Fault) :
    getAnalyticsData st uid t1 f1 f2 = getAnalyticsData st uid t2 f1 f2 ∧
    (getAnalyticsData st uid t1 none none).total_chats =
      (st.chat_sessions.filter (fun s => s.user_id == uid)).length ∧
    (getAnalyticsData st uid t1 none none).total_messages =
      (st.messages.filter (fun m => st.chat_sessions.any
        (fun s => s.id == m.chat_session_id && s.user_id == uid))).length ∧
    (getAnalyticsData st uid t1 none none).average_response_time = 8.5 ∧
    (getAnalyticsData st uid t1 none none).chat_duration = 4.2 ∧
    (getAnalyticsData st uid t1 none none).visitor_satisfaction = 92 ∧
    (getAnalyticsData st uid t1 none none).keyword_matches = mockKeywordMatches := by
  refine ⟨rfl, ?_, rfl, rfl, rfl, rfl, rfl⟩
  simp [getAnalyticsData]

/-- C9: messages are append-only and listed in creation order: each
listing is sorted by creation time ascending; a successful createMessage
appends exactly one row to the message table and the new message appears
last in a subsequent listing of its session; no other exported operation
changes the message table, and createMessage itself only ever extends
it. -/
theorem C9_messages_append_only (st : Store) (nm : MessageNew)
    (h : ∀ m ∈ st.messages, m.created_at ≤ st.clock) :
    (∃ msg st2,
      createMessage st nm none = (some msg, st2) ∧
      msg.chat_session_id = nm.chat_session_id ∧
      st2.messages = st.messages ++ [msg] ∧
      getChatSessionMessages st2 nm.chat_session_id none =
        getChatSessionMessages st nm.chat_session_id none ++ [msg]) ∧
    (∀ sid, List.Pairwise (fun a b => a.created_at ≤ b.created_at)
      (getChatSessionMessages st sid none)) ∧
    (∀ uid f1 f2, (getWidgetSettings st uid f1 f2).2.messages = st.messages) ∧
    (∀ p f, (updateWidgetSettings st p f).2.messages = st.messages) ∧
    (∀ nr f, (createKeywordResponse st nr f).2.messages = st.messages) ∧
    (∀ p f, (updateKeywordResponse st p f).2.messages = st.messages) ∧
    (∀ i f, (deleteKeywordResponse st i f).2.messages = st.messages) ∧
    (∀ p f, (updateChatSession st p f).2.messages = st.messages) ∧
    (∀ ns f, (createChatSession st ns f).2.messages = st.messages) ∧
    (∀ f, ∃ t, (createMessage st nm f).2.messages = st.messages ++ t) := by
  refine ⟨?_, ?_, ?_, ?_, ?_, ?_, ?_, ?_, ?_, ?_⟩
  · refine ⟨⟨freshId st, nm.chat_session_id, nm.sender, nm.content, st.clock⟩,
      { st with
          messages := st.messages ++
            [⟨freshId st, nm.chat_session_id, nm.sender, nm.content, st.clock⟩],
          nextId := st.nextId + 1,
          clock := st.clock + 1 },
      rfl, rfl, rfl, ?_⟩
    have hfa : (st.messages ++
          [(⟨freshId st, nm.chat_session_id, nm.sender, nm.content, st.clock⟩ : Message)]).filter
          (fun m => m.chat_session_id == nm.chat_session_id) =
        st.messages.filter (fun m => m.chat_session_id == nm.chat_session_id) ++
          [⟨freshId st, nm.chat_session_id, nm.sender, nm.content, st.clock⟩] := by
      rw [List.filter_append]
      simp
    have hmax : ∀ a ∈ st.messages.filter (fun m => m.chat_session_id == nm.chat_session_id),
        createdAsc a ⟨freshId st, nm.chat_session_id, nm.sender, nm.content, st.clock⟩ = true := by
      intro a ha
      have ha2 := h a (List.mem_filter.mp ha).1
      simpa [createdAsc] using ha2
    show ordSort createdAsc _ = _
    rw [hfa]
    exact ordSort_append_max createdAsc _ _ hmax
  · intro sid
    have hp := pairwise_ordSort createdAsc createdAsc_total createdAsc_trans
      (st.messages.filter (fun m => m.chat_session_id == sid))
    exact hp.imp (fun hx => by simpa [createdAsc] using hx)
  · intro uid f1 f2
    simp only [getWidgetSettings]
    split
    · rfl
    · rfl
    · split
      · cases f2 <;> rfl
      · rfl
  · intro p f
    cases hpid : p.id with
    | none => cases f <;> simp [updateWidgetSettings, hpid]
    | some i =>
        cases f with
        | some g => simp [updateWidgetSettings, hpid]
        | none =>
            simp only [updateWidgetSettings, hpid]
            split <;> rfl
  · intro nr f; cases f <;> rfl
  · intro p f
    cases f with
    | some g => rfl
    | none =>
        simp only [updateKeywordResponse]
        split <;> rfl
  · intro i f; cases f <;> rfl
  · intro p f
    cases f with
    | some g => rfl
    | none =>
        simp only [updateChatSession]
        split <;> rfl
  · intro ns f; cases f <;> rfl
  · intro f
    cases f with
    | none =>
        exact ⟨[⟨freshId st, nm.chat_session_id, nm.sender, nm.content, st.clock⟩], rfl⟩
    | some g => exact ⟨[], (List.append_nil st.messages).symm⟩

/-- C9 witness: at the populated store (all creation times at most the
clock), creating a message in session "c1" appends it and a subsequent
listing of "c1" ends with the new message. -/
theorem C9_messages_append_only_witness :
    (∀ m ∈ st1.messages, m.created_at ≤ st1.clock) ∧
    (∃ msg st2,
      createMessage st1 ⟨"c1", "agent", "hi"⟩ none = (some msg, st2) ∧
      msg.chat_session_id = ("c1" : String) ∧
      st2.messages = st1.messages ++ [msg] ∧
      getChatSessionMessages st2 "c1" none =
        getChatSessionMessages st1 "c1" none ++ [msg]) :=
  ⟨by decide, (C9_messages_append_only st1 ⟨"c1", "agent", "hi"⟩ (by decide)).1⟩

/-- C10: the two lookups of getWidgetData fail or succeed as a unit: a
failing settings query, a missing settings row (the single-row coercion
failing), or a failing keyword-response query each collapse the whole
result to the null-settings/empty-list fallback — in particular a
successfully fetched settings row is discarded when the keyword query
fails — and only when both round trips succeed does the caller see the
settings row together with the owner's active keyword responses. -/
theorem C10_widget_data_unit_failure (st : Store) (uid : String) :
    (∀ (f : Fault) f2, getWidgetData st uid (some f) f2 = widgetDataFallback) ∧
    (st.widget_settings.filter (fun r => r.user_id == uid) = [] →
      ∀ f2, getWidgetData st uid none f2 = widgetDataFallback) ∧
    (∀ s (f : Fault), st.widget_settings.filter (fun r => r.user_id == uid) = [s] →
      getWidgetData st uid none (some f) = widgetDataFallback) ∧
    (∀ s, st.widget_settings.filter (fun r => r.user_id == uid) = [s] →
      getWidgetData st uid none none =
        { settings := some s
          keywordResponses := ordSort priorityDesc
            (st.keyword_responses.filter (fun r => r.user_id == uid && r.is_active)) }) := by
  refine ⟨?_, ?_, ?_, ?_⟩
  · intro f f2; cases f <;> rfl
  · intro hfil f2
    have hs : singleRow (st.widget_settings.filter (fun r => r.user_id == uid)) =
        Except.error noRowCode := by rw [hfil]; rfl
    simp only [getWidgetData]
    rw [hs]
    rfl
  · intro s f hfil
    have hs : singleRow (st.widget_settings.filter (fun r => r.user_id == uid)) =
        Except.ok s := by rw [hfil]; rfl
    simp only [getWidgetData]
    rw [hs]
    rfl
  · intro s hfil
    have hs : singleRow (st.widget_settings.filter (fun r => r.user_id == uid)) =
        Except.ok s := by rw [hfil]; rfl
    simp only [getWidgetData]
    rw [hs]
    rfl

/-- C10 witness: owner "u2" has the settings row s1; the settings fetch
succeeds, yet a fault on the keyword query collapses the result to the
fallback, discarding s1; with no fault both parts are returned, and for
an owner with no settings row the whole result is the fallback. -/
theorem C10_widget_data_unit_failure_witness :
    st1.widget_settings.filter (fun r => r.user_id == "u2") = [s1] ∧
    getWidgetData st1 "u2" none (some Fault.thrown) = widgetDataFallback ∧
    getWidgetData st1 "u2" none none =
      { settings := some s1
        keywordResponses := ordSort priorityDesc
          (st1.keyword_responses.filter (fun r => r.user_id == "u2" && r.is_active)) } ∧
    getWidgetData st0 "u1" none none = widgetDataFallback :=
  ⟨rfl,
   (C10_widget_data_unit_failure st1 "u2").2.2.1 s1 Fault.thrown rfl,
   (C10_widget_data_unit_failure st1 "u2").2.2.2 s1 rfl,
   (C10_widget_data_unit_failure st0 "u1").2.1 rfl none⟩

end WidgetApi
